import Mathlib

/-
Formal model of the INDI driver/package fetcher scripts.

The repository has two variants of the fetcher:
  - task_1.py ("Host A"): a sequential GitHub-API fetcher.
  - task_2.py ("Host B"): a concurrent GitLab (Salsa) fetcher.

Network effects are modelled by passing oracle functions (from URLs/branch
names to abstract fetch outcomes) into the embedded functions, so that each
embedded function is a pure transcription of the control flow of the Python
source.
-/

namespace IndiFetcher

/-- Characters stripped by the Python str.strip() method (Unicode whitespace,
as used on changelog lines and ignore-file lines). -/
def isPySpace (c : Char) : Bool :=
  c.toNat = 32 || (9 ≤ c.toNat && c.toNat ≤ 13) || (28 ≤ c.toNat && c.toNat ≤ 31) ||
  c.toNat = 0x85 || c.toNat = 0xa0 || c.toNat = 0x1680 ||
  (0x2000 ≤ c.toNat && c.toNat ≤ 0x200a) ||
  c.toNat = 0x2028 || c.toNat = 0x2029 || c.toNat = 0x202f || c.toNat = 0x205f ||
  c.toNat = 0x3000

/-- Line-boundary characters recognised by the Python str.splitlines() method. -/
def isLineBreak (c : Char) : Bool :=
  c.toNat = 10 || c.toNat = 13 || c.toNat = 11 || c.toNat = 12 ||
  c.toNat = 28 || c.toNat = 29 || c.toNat = 30 ||
  c.toNat = 0x85 || c.toNat = 0x2028 || c.toNat = 0x2029

/-- Model of Python str.strip() on a character list. -/
def pyStripL (l : List Char) : List Char :=
  ((l.dropWhile isPySpace).reverse.dropWhile isPySpace).reverse

/-- Worker for the model of Python str.splitlines(): acc holds the current
line reversed; a carriage return directly followed by a line feed counts as a
single boundary. -/
def pySplitlinesAux (acc : List Char) : List Char → List (List Char)
  | [] => if acc = [] then [] else [acc.reverse]
  | '\r' :: '\n' :: rest => acc.reverse :: pySplitlinesAux [] rest
  | c :: rest =>
    if isLineBreak c then acc.reverse :: pySplitlinesAux [] rest
    else pySplitlinesAux (c :: acc) rest

/-- Model of Python str.splitlines() on a character list. -/
def pySplitlines (l : List Char) : List (List Char) :=
  pySplitlinesAux [] l

/-- The first element of splitlines of a string, or the empty list when the
text has no lines. -/
def firstLineL (t : String) : List Char :=
  match pySplitlines t.data with
  | [] => []
  | l :: _ => l

/-- Helper for the regex pattern used by extract_version: having consumed an
opening parenthesis, capture the (non-greedy) run of characters up to the
first closing parenthesis, or fail when none follows. -/
def captureAfter : List Char → Option (List Char)
  | [] => none
  | c :: rest => if c = ')' then some [] else (captureAfter rest).map (fun l => c :: l)

/-- Model of re.search applied to the version pattern: find the leftmost
opening parenthesis and capture up to the first closing parenthesis after it,
exactly the semantics of the non-greedy parenthesized-group regex in the
source. -/
def captureParen : List Char → Option (List Char)
  | [] => none
  | c :: rest => if c = '(' then captureAfter rest else captureParen rest

/-- Model of extract_version from task_1.py and task_2.py (both copies are
identical): empty text gives "Unknown"; otherwise the first line of the text
is stripped and the first parenthesized group on it is returned verbatim,
with "Unknown" when no group matches. -/
def extract_version (file_content : String) : String :=
  if file_content = "" then "Unknown"
  else
    match pySplitlines file_content.data with
    | [] => "Unknown"
    | first :: _ =>
      match captureParen (pyStripL first) with
      | some v => String.mk v
      | none => "Unknown"

/-- Outcome of one raw-file fetch: an HTTP-200 response carrying the body
text, a 404-equivalent non-200 response, or a transport-level client error. -/
inductive FetchOutcome where
  | ok (content : String)
  | notFound
  | transportError
deriving DecidableEq

/-- The fixed changelog path candidates of task_2.py, in source order. -/
def changelog_paths : List String :=
  ["debian/changelog", "packaging/debian/changelog", "debian.upstream/changelog",
   "orig/debian/changelog"]

/-- The branch priority list of get_package_info in task_2.py. -/
def task2_branches (default_branch : String) : List String :=
  ["debian/main", default_branch, "master"]

/-- Inner loop of get_changelog in task_2.py: within one branch, try each
path; a 200 response returns its text and the branch, anything else advances
to the next path. -/
def find_in_paths (fetch : String → String → FetchOutcome) (branch : String) :
    List String → Option (String × String)
  | [] => none
  | p :: rest =>
    match fetch branch p with
    | FetchOutcome.ok content => some (content, branch)
    | _ => find_in_paths fetch branch rest

/-- Model of get_changelog from task_2.py: iterate branches in priority
order, and within each branch iterate the path candidates; return the first
200 response's text together with the branch, or nothing when every
combination is exhausted. The fetch oracle maps a (branch, path) pair to the
outcome of the corresponding raw-file request. -/
def get_changelog (fetch : String → String → FetchOutcome) (paths : List String) :
    List String → Option (String × String)
  | [] => none
  | b :: bs =>
    match find_in_paths fetch b paths with
    | some r => some r
    | none => get_changelog fetch paths bs

/-- True exactly on an HTTP-200 outcome. -/
def fetchOk : FetchOutcome → Bool
  | FetchOutcome.ok _ => true
  | _ => false

/-- Body text of an outcome (empty for non-200 outcomes). -/
def contentOf : FetchOutcome → String
  | FetchOutcome.ok content => content
  | _ => ""

/-- All (branch, path) pairs in branch-major priority order. -/
def candidate_pairs (branches paths : List String) : List (String × String) :=
  branches.flatMap (fun b => paths.map (fun p => (b, p)))

/-- Declarative description of the locator: the content and branch of the
first candidate pair whose fetch returns HTTP 200. -/
def first_success (fetch : String → String → FetchOutcome)
    (branches paths : List String) : Option (String × String) :=
  ((candidate_pairs branches paths).find? (fun bp => fetchOk (fetch bp.1 bp.2))).map
    (fun bp => (contentOf (fetch bp.1 bp.2), bp.1))

/-- The behavior claimed in the specification for the locator: the first
candidate pair whose fetch returns HTTP 200 with non-empty content. This is
written from the specification's words, to be compared with the locator
transcribed from the source. -/
def first_nonempty_success (fetch : String → String → FetchOutcome)
    (branches paths : List String) : Option (String × String) :=
  ((candidate_pairs branches paths).find? (fun bp =>
      match fetch bp.1 bp.2 with
      | FetchOutcome.ok content => content != ""
      | _ => false)).map
    (fun bp => (contentOf (fetch bp.1 bp.2), bp.1))

/-- A commit as returned by the GitLab commits endpoint: its full id and its
own commit date (the latter is present in the payload but unused by the
git-hash construction in task_2.py). -/
structure Commit where
  id : String
  committed_date : String
deriving DecidableEq

/-- Outcome of one commits-listing request in task_2.py: a 200 response with
the commit list, a non-200 response, or an aiohttp ClientError. -/
inductive CommitsOutcome where
  | ok (commits : List Commit)
  | httpError
  | clientError
deriving DecidableEq

/-- The branch loop of get_package_info in task_2.py: the first branch whose
commits request returns 200 with a non-empty list supplies the latest commit;
non-200 responses, client errors and empty lists advance to the next branch. -/
def find_latest_commit (fetchCommits : String → CommitsOutcome) :
    List String → Option Commit
  | [] => none
  | b :: bs =>
    match fetchCommits b with
    | CommitsOutcome.ok (c :: _) => some c
    | _ => find_latest_commit fetchCommits bs

/-- The fields of a GitLab project record that task_2.py reads: its name and
its optional last_activity_at timestamp (none when the key is absent). -/
structure Project where
  name : String
  last_activity_at : Option String
deriving DecidableEq

/-- Model of project.get with the "Unknown" default used in task_2.py. -/
def getLastActivity (p : Project) : String :=
  p.last_activity_at.getD "Unknown"

/-- Model of the date mangling in both scripts: keep the text before the
first T and delete every dash, turning an ISO timestamp into YYYYMMDD. -/
def dateCompact (d : String) : String :=
  String.mk ((d.data.takeWhile (fun c => c ≠ 'T')).filter (fun c => c ≠ '-'))

/-- The git_hash construction of get_package_info in task_2.py: "Unknown"
without a latest commit; with one, the hash is built from the project's
last-activity date and the first 8 characters of the commit id, but only when
the last-activity field is present. -/
def compute_git_hash (p : Project) : Option Commit → String
  | none => "Unknown"
  | some c =>
    if getLastActivity p ≠ "Unknown" then
      "git" ++ (dateCompact (getLastActivity p) ++ ("." ++ String.mk (c.id.data.take 8)))
    else "Unknown"

/-- The record assembled by get_package_info in task_2.py. -/
structure PackageInfo where
  name : String
  debian_version : String
  git_hash : String
  last_activity : String
  changelog_found : Bool
  changelog_branch : String
deriving DecidableEq

/-- Model of get_package_info from task_2.py, parameterised by the commits
oracle, the raw-file oracle and the project's default branch (as returned by
get_default_branch). -/
def get_package_info (fetchCommits : String → CommitsOutcome)
    (fetchFile : String → String → FetchOutcome) (default_branch : String)
    (p : Project) : PackageInfo :=
  let branches := task2_branches default_branch
  let latest_commit := find_latest_commit fetchCommits branches
  let located := get_changelog fetchFile changelog_paths branches
  let version :=
    match located with
    | some (content, _) => if content = "" then "Unknown" else extract_version content
    | none => "Unknown"
  { name := p.name
    debian_version := version
    git_hash := compute_git_hash p latest_commit
    last_activity := getLastActivity p
    changelog_found := located.isSome
    changelog_branch :=
      match located with
      | some (_, branch) => if branch = "" then "Not found" else branch
      | none => "Not found" }

/-- The per-package output line printed by main in task_2.py. -/
def format_package_line (p : PackageInfo) : String :=
  "Package: " ++ (p.name ++ (", Version: " ++ p.debian_version))

/-- One entry of the GitHub contents listing used by task_1.py. -/
structure ContentItem where
  type : String
  name : String
deriving DecidableEq

/-- A commit as consumed by task_1.py: its sha and its committer date. -/
structure CommitA where
  sha : String
  date : String
deriving DecidableEq

/-- Outcome of the per-driver commits request in task_1.py: either a JSON
commit list, or a requests.RequestException raised by raise_for_status or
the request itself. -/
inductive CommitsResultA where
  | ok (commits : List CommitA)
  | err
deriving DecidableEq

/-- The record appended per driver by get_drivers in task_1.py. -/
structure DriverRecord where
  name : String
  version : String
  latest_git_hash : String
deriving DecidableEq

/-- The version resolution of the loop body in get_drivers (task_1.py): the
changelog oracle returns the text that get_changelog produces, or none; a
missing or falsy (empty) text leaves the version "Unknown". -/
def driver_version_of (changelogOf : String → Option String)
    (driver_name : String) : String :=
  match changelogOf driver_name with
  | some content => if content = "" then "Unknown" else extract_version content
  | none => "Unknown"

/-- The git-info construction of get_drivers (task_1.py): an empty commit
list gives "Unknown", otherwise the commit's date compacted to YYYYMMDD plus
the first 7 characters of its sha. -/
def git_info_of : List CommitA → String
  | [] => "Unknown"
  | c :: _ => "git" ++ (dateCompact c.date ++ ("." ++ String.mk (c.sha.data.take 7)))

/-- The per-driver body of the loop in get_drivers (task_1.py): resolve the
changelog, then fetch the latest commit; a commits-request exception skips
the append entirely, so the driver yields no record. -/
def process_driver (changelogOf : String → Option String)
    (commitsOf : String → CommitsResultA) (driver_name : String) :
    Option DriverRecord :=
  match commitsOf driver_name with
  | CommitsResultA.err => none
  | CommitsResultA.ok commits =>
    some { name := driver_name, version := driver_version_of changelogOf driver_name,
           latest_git_hash := git_info_of commits }

/-- The filter applied to a contents entry in get_drivers (task_1.py): keep
directory entries whose name is not in the ignore list. -/
def keep_item (ignore_dirs : List String) (it : ContentItem) : Bool :=
  it.type == "dir" && !(ignore_dirs.contains it.name)

/-- Model of the loop of get_drivers in task_1.py over the repository
contents listing. -/
def get_drivers (changelogOf : String → Option String)
    (commitsOf : String → CommitsResultA) (ignore_dirs : List String) :
    List ContentItem → List DriverRecord
  | [] => []
  | it :: rest =>
    if keep_item ignore_dirs it then
      match process_driver changelogOf commitsOf it.name with
      | some d => d :: get_drivers changelogOf commitsOf ignore_dirs rest
      | none => get_drivers changelogOf commitsOf ignore_dirs rest
    else get_drivers changelogOf commitsOf ignore_dirs rest

/-- The per-driver output line printed by main in task_1.py. -/
def format_driver_line (d : DriverRecord) : String :=
  "Driver: " ++ (d.name ++ (", Version: " ++ (d.version ++ (", Latest Git Hash: " ++ d.latest_git_hash))))

/-- Separator class of the ignore-file token regex (commas or whitespace). -/
def isSepChar (c : Char) : Bool :=
  c = ',' || isPySpace c

/-- Model of re.split on runs of separators: mode is true while consuming a
separator run that has already emitted its preceding token. -/
def reSplitGo (mode : Bool) (acc : List Char) : List Char → List (List Char)
  | [] => if mode then [[]] else [acc.reverse]
  | c :: rest =>
    if mode then
      if isSepChar c then reSplitGo true [] rest
      else reSplitGo false [c] rest
    else
      if isSepChar c then acc.reverse :: reSplitGo true [] rest
      else reSplitGo false (c :: acc) rest

/-- Model of re.split over the comma-or-whitespace pattern of both
parse_ignore_file variants. -/
def reSplitSep (l : List Char) : List (List Char) :=
  reSplitGo false [] l

/-- One line of an ignore file after comment removal and stripping, as done
in both parse_ignore_file variants. -/
def strip_comment (line : String) : String :=
  String.mk (pyStripL (line.data.takeWhile (fun c => c ≠ '#')))

/-- The tokens one ignore-file line contributes: nothing for blank or
comment-only lines, otherwise the comma-or-whitespace split of the stripped
line (empty tokens included, as re.split produces them). -/
def parse_tokens (line : String) : List String :=
  let l := strip_comment line
  if l = "" then [] else (reSplitSep l.data).map String.mk

/-- The built-in default ignore list of main in task_1.py. -/
def default_ignore_dirs_A : List String :=
  [".circleci", ".github", "cmake_modules", "debian", "examples", "scripts", "spec",
   "obsolete"]

/-- The built-in default ignore list of main in task_2.py. -/
def default_ignore_dirs_B : List String :=
  ["indi-asu", "indi-ahp-xc"]

/-- Model of parse_ignore_file from task_1.py: the input is the readable
file's line list, or none for a missing or unreadable file, which this
variant reports by returning none; a readable file yields its token list with
empty tokens removed. -/
def parse_ignore_file_A : Option (List String) → Option (List String)
  | none => none
  | some fileLines =>
    some ((fileLines.flatMap parse_tokens).filter (fun d => d ≠ ""))

/-- Model of parse_ignore_file from task_2.py: a missing or unreadable file
makes the process exit with status 1 (modelled as the error value); a
readable file yields its token list, with no empty-token filtering. -/
def parse_ignore_file_B : Option (List String) → Except Nat (List String)
  | none => Except.error 1
  | some fileLines => Except.ok (fileLines.flatMap parse_tokens)

/-- The ignore-list resolution step of main in task_1.py: the argument is
none when no ignore-file path was given, otherwise the read outcome of the
given file; an absent argument or a failed parse falls back to the built-in
default list. -/
def main_ignore_dirs_A : Option (Option (List String)) → List String
  | none => default_ignore_dirs_A
  | some fileRead =>
    match parse_ignore_file_A fileRead with
    | some l => l
    | none => default_ignore_dirs_A

/-- The ignore-list resolution step of main in task_2.py: an absent argument
uses the built-in default list, and a parse failure propagates the exit
(which happens before any enumeration). -/
def main_ignore_dirs_B : Option (Option (List String)) → Except Nat (List String)
  | none => Except.ok default_ignore_dirs_B
  | some fileRead =>
    match parse_ignore_file_B fileRead with
    | Except.ok l => Except.ok l
    | Except.error e => Except.error e

/-- Outcome of one group-lookup request in get_astro_team_id (task_2.py):
a 200 response carrying the group id, a 429 rate-limit response, another
ClientResponseError status, or a transport-level ClientError. -/
inductive TeamIdOutcome where
  | ok (group_id : Nat)
  | rateLimited
  | httpError
  | clientError
deriving DecidableEq

/-- The initial backoff time in seconds of get_astro_team_id. -/
def backoff_factor : Nat := 1

/-- The retry budget of get_astro_team_id. -/
def astro_retries : Nat := 5

/-- The attempt loop of get_astro_team_id in task_2.py, parameterised by the
response of each attempt. It returns the result, the number of requests
issued, and the list of backoff sleeps performed: a 200 response returns the
group id at once; a 429 sleeps backoff_factor times 2 to the attempt index
and retries; any other error returns none at once; an exhausted budget
returns none. -/
def astro_run (responses : Nat → TeamIdOutcome) (attempt : Nat) :
    Nat → Option Nat × (Nat × List Nat)
  | 0 => (none, (0, []))
  | fuel + 1 =>
    match responses attempt with
    | TeamIdOutcome.ok gid => (some gid, (1, []))
    | TeamIdOutcome.rateLimited =>
      let r := astro_run responses (attempt + 1) fuel
      (r.1, (r.2.1 + 1, (backoff_factor * 2 ^ attempt) :: r.2.2))
    | TeamIdOutcome.httpError => (none, (1, []))
    | TeamIdOutcome.clientError => (none, (1, []))

/-- Model of get_astro_team_id from task_2.py with its default retry count. -/
def get_astro_team_id (responses : Nat → TeamIdOutcome) :
    Option Nat × (Nat × List Nat) :=
  astro_run responses 0 astro_retries

/-- Concrete fetch oracle: the first candidate pair answers 200 with empty
content, the second answers 200 with non-empty content, all others 404. -/
def c1Fetch : String → String → FetchOutcome := fun branch path =>
  if branch = "debian/main" ∧ path = "debian/changelog" then FetchOutcome.ok ""
  else if branch = "debian/main" ∧ path = "packaging/debian/changelog" then
    FetchOutcome.ok "x"
  else FetchOutcome.notFound

/-- Concrete commit for the C4 scenario. -/
def c4Commit : Commit :=
  { id := "abcdef123456", committed_date := "2024-05-01T00:00:00Z" }

/-- Concrete commits oracle: the packaging branch yields one commit. -/
def c4FetchCommits : String → CommitsOutcome := fun b =>
  if b = "debian/main" then CommitsOutcome.ok [c4Commit] else CommitsOutcome.clientError

/-- Concrete raw-file oracle that never finds a changelog. -/
def c4FetchFile : String → String → FetchOutcome := fun _ _ => FetchOutcome.notFound

/-- Concrete project lacking a last_activity_at field. -/
def c4Project : Project := { name := "indi-foo", last_activity_at := none }

/-- Concrete changelog oracle for the Host A scenarios: no changelogs. -/
def c5ChangelogOf : String → Option String := fun _ => none

/-- Concrete commits oracle for Host A: the request for driver b always
raises, the others succeed with one commit. -/
def c5CommitsOf : String → CommitsResultA := fun n =>
  if n = "b" then CommitsResultA.err
  else CommitsResultA.ok [{ sha := "1234567890abcdef", date := "2024-01-02T03:04:05Z" }]

/-- Concrete contents listing with three driver directories. -/
def c5Contents : List ContentItem :=
  [{ type := "dir", name := "a" }, { type := "dir", name := "b" },
   { type := "dir", name := "c" }]

/-- Concrete Host B record for the output-format comparison. -/
def c6Package : PackageInfo :=
  { name := "indi-foo", debian_version := "1.0-1", git_hash := "Unknown",
    last_activity := "Unknown", changelog_found := false,
    changelog_branch := "Not found" }

/-- Concrete Host A changelog oracle returning a well-formed changelog. -/
def c6ChangelogOf : String → Option String := fun _ => some "indi-foo (1.0-1) unstable"

/-- Concrete Host A commits oracle returning one commit. -/
def c6CommitsOf : String → CommitsResultA :=
  fun _ => CommitsResultA.ok [{ sha := "89abcdef0123", date := "2023-12-31T23:59:59Z" }]

/-- Concrete contents listing with a single driver directory. -/
def c6Contents : List ContentItem := [{ type := "dir", name := "indi-foo" }]

/-- The record produced for the single driver of c6Contents. -/
def c6Driver : DriverRecord :=
  { name := "indi-foo", version := "1.0-1", latest_git_hash := "git20231231.89abcde" }

/-- Concrete response oracle that is rate-limited on every attempt. -/
def c8Responses : Nat → TeamIdOutcome := fun _ => TeamIdOutcome.rateLimited

/-- Concrete commit found on the master branch in the C10 scenario. -/
def c10Commit : Commit :=
  { id := "0123456789abcdef", committed_date := "2020-01-01T00:00:00Z" }

/-- Concrete commits oracle: only master yields a commit. -/
def c10FetchCommits : String → CommitsOutcome := fun b =>
  if b = "master" then CommitsOutcome.ok [c10Commit] else CommitsOutcome.httpError

/-- Concrete raw-file oracle whose requests all fail at transport level. -/
def c10FetchFile : String → String → FetchOutcome := fun _ _ => FetchOutcome.transportError

/-- Concrete project carrying a last-activity timestamp. -/
def c10Project : Project :=
  { name := "indi-bar", last_activity_at := some "2024-03-04T10:00:00.000Z" }

theorem captureAfter_complete {b : List Char} (c : List Char) (hb : ')' ∉ b) :
    captureAfter (b ++ ')' :: c) = some b := by
  induction b with
  | nil => simp [captureAfter]
  | cons x rest ih =>
    have hx : x ≠ ')' := fun h => hb (by simp [h])
    have hrest : ')' ∉ rest := fun h => hb (List.mem_cons_of_mem x h)
    simp [captureAfter, hx, ih hrest]

theorem captureParen_complete {a b : List Char} (c : List Char) (ha : '(' ∉ a)
    (hb : ')' ∉ b) :
    captureParen (a ++ '(' :: (b ++ ')' :: c)) = some b := by
  induction a with
  | nil => simp [captureParen, captureAfter_complete c hb]
  | cons x rest ih =>
    have hx : x ≠ '(' := fun h => ha (by simp [h])
    have hrest : '(' ∉ rest := fun h => ha (List.mem_cons_of_mem x h)
    simp [captureParen, hx, ih hrest]

theorem captureAfter_sound {l v : List Char} (h : captureAfter l = some v) :
    ∃ c, l = v ++ ')' :: c := by
  induction l generalizing v with
  | nil => simp [captureAfter] at h
  | cons x rest ih =>
    by_cases hx : x = ')'
    · subst hx
      simp [captureAfter] at h
      subst h
      exact ⟨rest, rfl⟩
    · simp [captureAfter, hx, Option.map_eq_some'] at h
      obtain ⟨w, hw, rfl⟩ := h
      obtain ⟨c, hc⟩ := ih hw
      exact ⟨c, by simp [hc]⟩

theorem captureParen_sound {l v : List Char} (h : captureParen l = some v) :
    ∃ a c, l = a ++ '(' :: (v ++ ')' :: c) := by
  induction l generalizing v with
  | nil => simp [captureParen] at h
  | cons x rest ih =>
    by_cases hx : x = '('
    · subst hx
      simp [captureParen] at h
      obtain ⟨c, hc⟩ := captureAfter_sound h
      exact ⟨[], c, by simp [hc]⟩
    · simp [captureParen, hx] at h
      obtain ⟨a, c, hc⟩ := ih h
      exact ⟨x :: a, c, by simp [hc]⟩

theorem extract_version_capture {t : String} {v : List Char}
    (h : captureParen (pyStripL (firstLineL t)) = some v) :
    extract_version t = String.mk v := by
  have ht : t ≠ "" := by
    intro h0
    rw [h0] at h
    exact Option.noConfusion h
  unfold extract_version
  rw [if_neg ht]
  cases hsp : pySplitlines t.data with
  | nil =>
    have h1 : firstLineL t = [] := by unfold firstLineL; rw [hsp]
    rw [h1] at h
    simp [pyStripL, captureParen] at h
  | cons first rest =>
    have hfl : firstLineL t = first := by unfold firstLineL; rw [hsp]
    rw [hfl] at h
    simp only [h]

theorem extract_version_nomatch {t : String}
    (h : captureParen (pyStripL (firstLineL t)) = none) :
    extract_version t = "Unknown" := by
  by_cases ht : t = ""
  · rw [ht]; rfl
  · unfold extract_version
    rw [if_neg ht]
    cases hsp : pySplitlines t.data with
    | nil => rfl
    | cons first rest =>
      have hfl : firstLineL t = first := by unfold firstLineL; rw [hsp]
      rw [hfl] at h
      simp only [h]

/-- C2: for every input text, extract_version takes the first line of the
text, strips it, and returns verbatim the interior of the first parenthesized
group on that line; it returns "Unknown" when the text is empty, has no
lines, or the first line contains no parenthesized group. The group is
characterised by the decomposition of the stripped first line into a prefix
without an opening parenthesis, the captured interior without a closing
parenthesis, and an arbitrary remainder. -/
theorem C2_extract_version_behavior (t : String) :
    (t = "" → extract_version t = "Unknown") ∧
    (∀ a b c : List Char, '(' ∉ a → ')' ∉ b →
      pyStripL (firstLineL t) = a ++ '(' :: (b ++ ')' :: c) →
      extract_version t = String.mk b) ∧
    ((¬ ∃ a b c : List Char, pyStripL (firstLineL t) = a ++ '(' :: (b ++ ')' :: c)) →
      extract_version t = "Unknown") := by
  refine ⟨?_, ?_, ?_⟩
  · intro h; rw [h]; rfl
  · intro a b c ha hb hline
    exact extract_version_capture (by rw [hline]; exact captureParen_complete c ha hb)
  · intro hno
    cases hcap : captureParen (pyStripL (firstLineL t)) with
    | none => exact extract_version_nomatch hcap
    | some v =>
      obtain ⟨a, c, hc⟩ := captureParen_sound hcap
      exact absurd ⟨a, v, c, hc⟩ hno

/-- C2 witness: a standard changelog first line evaluates to its version
token. -/
theorem C2_witness :
    extract_version "mypkg (1.2.3-1) unstable; urgency=low" =
      String.mk ['1', '.', '2', '.', '3', '-', '1'] :=
  (C2_extract_version_behavior _).2.1 "mypkg ".data ['1', '.', '2', '.', '3', '-', '1']
    " unstable; urgency=low".data (by decide) (by decide) (by decide)

/-- C3 counterexample: a text whose first line is empty and whose first
non-empty line carries a parenthesized version still evaluates to "Unknown",
not to the interior of that group, refuting the claim that leading empty
lines are skipped. -/
theorem C3_counterexample :
    pySplitlines ("\nmypkg (1.2.3-1) unstable".data) =
      [[], "mypkg (1.2.3-1) unstable".data] ∧
    extract_version "\nmypkg (1.2.3-1) unstable" = "Unknown" ∧
    ("Unknown" : String) ≠ "1.2.3-1" := by
  decide

/-- C3 amended: the guarantee holds for the literal first line only: when the
stripped first line decomposes around a parenthesized group, its interior is
returned verbatim; and a first line that strips to nothing (in particular an
empty or whitespace-only leading line) yields "Unknown" regardless of later
lines. -/
theorem C3_first_line_version (t : String) :
    (∀ a b c : List Char, '(' ∉ a → ')' ∉ b →
      pyStripL (firstLineL t) = a ++ '(' :: (b ++ ')' :: c) →
      extract_version t = String.mk b) ∧
    (pyStripL (firstLineL t) = [] → extract_version t = "Unknown") := by
  constructor
  · intro a b c ha hb hline
    exact extract_version_capture (by rw [hline]; exact captureParen_complete c ha hb)
  · intro h0
    exact extract_version_nomatch (by rw [h0]; rfl)

/-- C3 witness: a first line with leading whitespace and an epoch-qualified
version evaluates to the interior of the parenthesized group. -/
theorem C3_witness :
    extract_version "  libindi-dev (2:1.9.8) unstable" = String.mk "2:1.9.8".data :=
  (C3_first_line_version _).1 "libindi-dev ".data "2:1.9.8".data " unstable".data
    (by decide) (by decide) (by decide)

theorem find?_append_split {α : Type} (p : α → Bool) (l1 l2 : List α) :
    (l1 ++ l2).find? p =
      match l1.find? p with
      | some a => some a
      | none => l2.find? p := by
  induction l1 with
  | nil => simp
  | cons x rest ih =>
    by_cases hx : p x = true
    · simp [List.find?, hx]
    · simp [List.find?, hx, ih]

theorem find_in_paths_spec (fetch : String → String → FetchOutcome) (b : String)
    (paths : List String) :
    find_in_paths fetch b paths =
      ((paths.map (fun p => (b, p))).find? (fun bp => fetchOk (fetch bp.1 bp.2))).map
        (fun bp => (contentOf (fetch bp.1 bp.2), bp.1)) := by
  induction paths with
  | nil => rfl
  | cons p rest ih =>
    cases hf : fetch b p with
    | ok content => simp [find_in_paths, hf, List.find?, fetchOk, contentOf]
    | notFound => simp [find_in_paths, hf, List.find?, fetchOk, ih]
    | transportError => simp [find_in_paths, hf, List.find?, fetchOk, ih]

/-- C1 amended: the Host B changelog locator iterates branches in the fixed
priority order and within each branch the fixed path list, and returns
exactly the content and branch of the first (branch, path) pair whose fetch
yields an HTTP-200-equivalent response, whether or not its content is empty;
404-equivalents and transport failures advance to the next candidate; when
every combination is exhausted it returns nothing, so when only the last
pair succeeds that pair's content and source are returned. -/
theorem C1_locator_first_success (fetch : String → String → FetchOutcome)
    (paths branches : List String) :
    get_changelog fetch paths branches = first_success fetch branches paths := by
  induction branches with
  | nil => rfl
  | cons b bs ih =>
    have hpairs : candidate_pairs (b :: bs) paths =
        (paths.map fun p => (b, p)) ++ candidate_pairs bs paths := rfl
    unfold first_success
    rw [hpairs, find?_append_split]
    unfold get_changelog
    rw [find_in_paths_spec fetch b paths]
    cases hfind : (paths.map fun p => (b, p)).find?
        (fun bp => fetchOk (fetch bp.1 bp.2)) with
    | some r => rfl
    | none => exact ih

/-- C1 counterexample: with a fetch oracle answering 200-with-empty-content
on the first candidate pair and 200-with-non-empty-content on the second,
the locator of the source returns the first pair's empty content, while the
claimed first-200-with-non-empty-content rule would return the second
pair's content; so the claim as stated is false on the code. -/
theorem C1_counterexample :
    get_changelog c1Fetch changelog_paths (task2_branches "main") =
      some ("", "debian/main") ∧
    first_nonempty_success c1Fetch (task2_branches "main") changelog_paths =
      some ("x", "debian/main") ∧
    some (("" : String), ("debian/main" : String)) ≠ some ("x", "debian/main") := by
  decide

theorem git_append_ne (s : String) : ("git" ++ s) ≠ "Unknown" := by
  obtain ⟨l⟩ := s
  intro h
  have h2 : 'g' :: 'i' :: 't' :: l = ['U', 'n', 'k', 'n', 'o', 'w', 'n'] :=
    congrArg String.data h
  injection h2 with h3 h4
  exact absurd h3 (by decide)

/-- C4 counterexample: a project whose packaging branch yields a latest
commit but whose record lacks a last-activity timestamp is reported with
git_hash "Unknown", refuting the claimed equivalence between "Unknown"
commit fields and the absence of commits on every branch. -/
theorem C4_counterexample :
    find_latest_commit c4FetchCommits (task2_branches "master") = some c4Commit ∧
    (get_package_info c4FetchCommits c4FetchFile "master" c4Project).git_hash =
      "Unknown" := by
  decide

/-- C4 amended: on Host B the record's git_hash is "Unknown" exactly when no
branch in the priority list yielded a commit or the project record lacks a
last-activity timestamp; when a commit exists and the timestamp is present
the hash is a non-"Unknown" value built from that commit. -/
theorem C4_git_hash_unknown_iff (fetchCommits : String → CommitsOutcome)
    (fetchFile : String → String → FetchOutcome) (default_branch : String)
    (p : Project) :
    (get_package_info fetchCommits fetchFile default_branch p).git_hash = "Unknown" ↔
      (find_latest_commit fetchCommits (task2_branches default_branch) = none ∨
        getLastActivity p = "Unknown") := by
  have hgh : (get_package_info fetchCommits fetchFile default_branch p).git_hash =
      compute_git_hash p (find_latest_commit fetchCommits (task2_branches default_branch)) :=
    rfl
  rw [hgh]
  cases h : find_latest_commit fetchCommits (task2_branches default_branch) with
  | none => simp [compute_git_hash]
  | some c =>
    by_cases hla : getLastActivity p = "Unknown"
    · simp [compute_git_hash, hla]
    · simp [compute_git_hash, hla, git_append_ne]

/-- C10: on Host B the date embedded in the reported git hash comes from the
project's last-activity timestamp, not from the commit's own date: with a
latest commit found, an absent timestamp forces git_hash "Unknown", a
present timestamp produces the hash from that timestamp and the first 8
characters of the commit id, and the hash is insensitive to the commit's
own committed_date field. -/
theorem C10_git_hash_uses_last_activity (fetchCommits : String → CommitsOutcome)
    (fetchFile : String → String → FetchOutcome) (default_branch : String)
    (p : Project) (c : Commit)
    (h : find_latest_commit fetchCommits (task2_branches default_branch) = some c) :
    (getLastActivity p = "Unknown" →
      (get_package_info fetchCommits fetchFile default_branch p).git_hash = "Unknown") ∧
    (getLastActivity p ≠ "Unknown" →
      (get_package_info fetchCommits fetchFile default_branch p).git_hash =
        "git" ++ (dateCompact (getLastActivity p) ++
          ("." ++ String.mk (c.id.data.take 8)))) ∧
    (∀ d : String,
      compute_git_hash p (some { id := c.id, committed_date := d }) =
        compute_git_hash p (some c)) := by
  have hgh : (get_package_info fetchCommits fetchFile default_branch p).git_hash =
      compute_git_hash p (find_latest_commit fetchCommits (task2_branches default_branch)) :=
    rfl
  refine ⟨?_, ?_, ?_⟩
  · intro hla
    rw [hgh, h]
    simp [compute_git_hash, hla]
  · intro hla
    rw [hgh, h]
    simp [compute_git_hash, hla]
  · intro d
    rfl

/-- C10 witness: with a commit found on master and a last-activity timestamp
of 2024-03-04, the reported hash is built from that date and the commit id
prefix. -/
theorem C10_witness :
    (get_package_info c10FetchCommits c10FetchFile "master" c10Project).git_hash =
      "git" ++ (dateCompact (getLastActivity c10Project) ++
        ("." ++ String.mk (c10Commit.id.data.take 8))) :=
  ((C10_git_hash_uses_last_activity c10FetchCommits c10FetchFile "master" c10Project
      c10Commit (by decide)).2.1) (by decide)

theorem get_drivers_append (changelogOf : String → Option String)
    (commitsOf : String → CommitsResultA) (ignore_dirs : List String)
    (xs ys : List ContentItem) :
    get_drivers changelogOf commitsOf ignore_dirs (xs ++ ys) =
      get_drivers changelogOf commitsOf ignore_dirs xs ++
        get_drivers changelogOf commitsOf ignore_dirs ys := by
  induction xs with
  | nil => rfl
  | cons it rest ih =>
    simp only [List.cons_append, get_drivers]
    by_cases hk : keep_item ignore_dirs it = true
    · rw [if_pos hk, if_pos hk]
      cases process_driver changelogOf commitsOf it.name with
      | some d => simp [ih]
      | none => exact ih
    · rw [if_neg hk, if_neg hk]
      exact ih

theorem process_driver_eq_ok (changelogOf : String → Option String)
    (commitsOf : String → CommitsResultA) (nm : String) (commits : List CommitA)
    (hc : commitsOf nm = CommitsResultA.ok commits) :
    process_driver changelogOf commitsOf nm = some
      { name := nm, version := driver_version_of changelogOf nm,
        latest_git_hash := git_info_of commits } := by
  unfold process_driver
  rw [hc]

theorem process_driver_eq_err (changelogOf : String → Option String)
    (commitsOf : String → CommitsResultA) (nm : String)
    (hc : commitsOf nm = CommitsResultA.err) :
    process_driver changelogOf commitsOf nm = none := by
  unfold process_driver
  rw [hc]

theorem process_driver_git_shape {changelogOf : String → Option String}
    {commitsOf : String → CommitsResultA} {nm : String} {d : DriverRecord}
    (h : process_driver changelogOf commitsOf nm = some d) :
    d.latest_git_hash = "Unknown" ∨
      ∃ c : CommitA, d.latest_git_hash =
        "git" ++ (dateCompact c.date ++ ("." ++ String.mk (c.sha.data.take 7))) := by
  cases hc : commitsOf nm with
  | err =>
    rw [process_driver_eq_err changelogOf commitsOf nm hc] at h
    exact absurd h (by simp)
  | ok commits =>
    rw [process_driver_eq_ok changelogOf commitsOf nm commits hc] at h
    have hd := (Option.some.injEq _ _).mp h
    cases commits with
    | nil => left; rw [← hd]; rfl
    | cons c cs => right; exact ⟨c, by rw [← hd]; rfl⟩

theorem mem_get_drivers {changelogOf : String → Option String}
    {commitsOf : String → CommitsResultA} {ignore_dirs : List String}
    {contents : List ContentItem} {d : DriverRecord}
    (h : d ∈ get_drivers changelogOf commitsOf ignore_dirs contents) :
    ∃ nm, process_driver changelogOf commitsOf nm = some d := by
  induction contents with
  | nil => exact absurd h (by simp [get_drivers])
  | cons it rest ih =>
    simp only [get_drivers] at h
    by_cases hk : keep_item ignore_dirs it = true
    · rw [if_pos hk] at h
      cases hp : process_driver changelogOf commitsOf it.name with
      | some r =>
        rw [hp] at h
        rcases List.mem_cons.mp h with h1 | h1
        · exact ⟨it.name, by rw [hp, h1]⟩
        · exact ih h1
      | none =>
        rw [hp] at h
        exact ih h
    · rw [if_neg hk] at h
      exact ih h

/-- C5 counterexample: on Host A, a driver whose commit-listing request
raises on every call is dropped from the result list instead of appearing
with commit fields "Unknown": with three directories and a failing commits
oracle for the middle one, only the outer two appear. -/
theorem C5_counterexample :
    ((get_drivers c5ChangelogOf c5CommitsOf [] c5Contents).map
        (fun d => d.name) = ["a", "c"]) ∧
    "b" ∉ (get_drivers c5ChangelogOf c5CommitsOf [] c5Contents).map (fun d => d.name) ∧
    c5CommitsOf "b" = CommitsResultA.err := by
  decide

/-- C5 amended: a totally failing project never blocks the rest. On Host A a
directory whose per-driver processing fails (its commit listing raises) is
skipped, leaving the records of the surrounding directories untouched; on
Host B a project whose commit-listing calls all fail still yields a record
bearing its name with git_hash "Unknown". -/
theorem C5_degraded_records (changelogOf : String → Option String)
    (commitsOf : String → CommitsResultA) (ignore_dirs : List String)
    (xs ys : List ContentItem) (it : ContentItem)
    (hfail : process_driver changelogOf commitsOf it.name = none)
    (fetchFile : String → String → FetchOutcome) (default_branch : String)
    (p : Project) :
    (get_drivers changelogOf commitsOf ignore_dirs (xs ++ it :: ys) =
      get_drivers changelogOf commitsOf ignore_dirs xs ++
        get_drivers changelogOf commitsOf ignore_dirs ys) ∧
    (get_package_info (fun _ => CommitsOutcome.clientError) fetchFile default_branch
        p).git_hash = "Unknown" ∧
    (get_package_info (fun _ => CommitsOutcome.clientError) fetchFile default_branch
        p).name = p.name := by
  refine ⟨?_, ?_, rfl⟩
  · rw [get_drivers_append]
    congr 1
    show get_drivers changelogOf commitsOf ignore_dirs (it :: ys) = _
    simp only [get_drivers, hfail]
    by_cases hk : keep_item ignore_dirs it = true
    · rw [if_pos hk]
    · rw [if_neg hk]
  · have hnone : find_latest_commit (fun _ => CommitsOutcome.clientError)
        (task2_branches default_branch) = none := rfl
    show compute_git_hash p (find_latest_commit (fun _ => CommitsOutcome.clientError)
        (task2_branches default_branch)) = "Unknown"
    rw [hnone]
    rfl

/-- C5 witness: the Host A skip behavior and the Host B degraded record at
concrete inputs. -/
theorem C5_witness :
    (get_drivers c5ChangelogOf c5CommitsOf []
        ([⟨"dir", "a"⟩] ++ (⟨"dir", "b"⟩ : ContentItem) :: [⟨"dir", "c"⟩]) =
      get_drivers c5ChangelogOf c5CommitsOf [] [⟨"dir", "a"⟩] ++
        get_drivers c5ChangelogOf c5CommitsOf [] [⟨"dir", "c"⟩]) ∧
    (get_package_info (fun _ => CommitsOutcome.clientError)
        (fun _ _ => FetchOutcome.notFound) "master"
        ⟨"indi-x", none⟩).git_hash = "Unknown" ∧
    (get_package_info (fun _ => CommitsOutcome.clientError)
        (fun _ _ => FetchOutcome.notFound) "master"
        ⟨"indi-x", none⟩).name = "indi-x" :=
  C5_degraded_records c5ChangelogOf c5CommitsOf [] [⟨"dir", "a"⟩] [⟨"dir", "c"⟩]
    ⟨"dir", "b"⟩ (by decide) (fun _ _ => FetchOutcome.notFound) "master"
    ⟨"indi-x", none⟩

/-- C6 counterexample: Host B does not print the claimed line shape: its
per-package line reads Package-colon name, Version-colon version, carries no
git-hash field at all, and does not begin with the Driver prefix the claim
requires of both hosts. -/
theorem C6_counterexample :
    format_package_line c6Package = "Package: indi-foo, Version: 1.0-1" ∧
    format_package_line c6Package ≠
      "Driver: " ++ (c6Package.name ++ (", Version: " ++ (c6Package.debian_version ++
        (", Latest Git Hash: " ++ c6Package.git_hash)))) ∧
    String.mk ((format_package_line c6Package).data.take 8) ≠ "Driver: " := by
  decide

/-- C6 amended: only Host A prints the claimed form: every record produced
by its enumeration is formatted as the Driver/Version/Latest-Git-Hash line,
and its git-info is either the literal "Unknown" or git-date-dot-prefix with
a hash prefix of at most 7 characters; Host B instead prints a
Package/Version line with no git-hash field. -/
theorem C6_output_format (changelogOf : String → Option String)
    (commitsOf : String → CommitsResultA) (ignore_dirs : List String)
    (contents : List ContentItem) (d : DriverRecord)
    (hd : d ∈ get_drivers changelogOf commitsOf ignore_dirs contents) :
    (format_driver_line d =
      "Driver: " ++ (d.name ++ (", Version: " ++ (d.version ++
        (", Latest Git Hash: " ++ d.latest_git_hash))))) ∧
    (d.latest_git_hash = "Unknown" ∨
      ∃ c : CommitA, d.latest_git_hash =
        "git" ++ (dateCompact c.date ++ ("." ++ String.mk (c.sha.data.take 7))) ∧
        (c.sha.data.take 7).length ≤ 7) ∧
    (∀ q : PackageInfo, format_package_line q =
      "Package: " ++ (q.name ++ (", Version: " ++ q.debian_version))) := by
  obtain ⟨nm, hnm⟩ := mem_get_drivers hd
  refine ⟨rfl, ?_, fun q => rfl⟩
  rcases process_driver_git_shape hnm with h1 | ⟨c, hc⟩
  · exact Or.inl h1
  · refine Or.inr ⟨c, hc, ?_⟩
    rw [List.length_take]
    exact min_le_left 7 _

/-- C6 witness: the record of the single enumerated driver is formatted in
the Host A line shape with a 7-character hash prefix. -/
theorem C6_witness :
    (format_driver_line c6Driver =
      "Driver: " ++ (c6Driver.name ++ (", Version: " ++ (c6Driver.version ++
        (", Latest Git Hash: " ++ c6Driver.latest_git_hash))))) ∧
    (c6Driver.latest_git_hash = "Unknown" ∨
      ∃ c : CommitA, c6Driver.latest_git_hash =
        "git" ++ (dateCompact c.date ++ ("." ++ String.mk (c.sha.data.take 7))) ∧
        (c.sha.data.take 7).length ≤ 7) ∧
    (∀ q : PackageInfo, format_package_line q =
      "Package: " ++ (q.name ++ (", Version: " ++ q.debian_version))) :=
  C6_output_format c6ChangelogOf c6CommitsOf [] c6Contents c6Driver (by decide)

/-- C7: the ignore-file loaders are asymmetric across hosts: on Host A an
unreadable or missing file is recoverable, parse_ignore_file returns none
and main falls back to the built-in default list, while on Host B the same
condition makes the process exit with status 1 (modelled as the error value,
which by construction precludes any enumeration). -/
theorem C7_ignore_file_asymmetry :
    (parse_ignore_file_A none = none ∧
      main_ignore_dirs_A (some none) = default_ignore_dirs_A) ∧
    (parse_ignore_file_B none = Except.error 1 ∧
      main_ignore_dirs_B (some none) = Except.error 1) :=
  ⟨⟨rfl, rfl⟩, ⟨rfl, rfl⟩⟩

theorem parse_tokens_blank {l : String} (h : strip_comment l = "") :
    parse_tokens l = [] := by
  unfold parse_tokens
  simp [h]

theorem flatMap_tokens_blank {fileLines : List String}
    (hall : ∀ l, l ∈ fileLines → strip_comment l = "") :
    fileLines.flatMap parse_tokens = [] := by
  induction fileLines with
  | nil => rfl
  | cons x rest ih =>
    rw [List.flatMap_cons, parse_tokens_blank (hall x (List.mem_cons_self x rest)),
      List.nil_append]
    exact ih fun l hl => hall l (List.mem_cons_of_mem x hl)

/-- C9: on Host A an existing but empty (or comments-only) ignore file is
distinguished from an absent one: parse_ignore_file returns the empty list,
main then uses that empty list so the enumeration filter keeps every
directory, whereas an absent argument or an unreadable file makes main use
the built-in default list. -/
theorem C9_empty_ignore_file (fileLines : List String) :
    (parse_ignore_file_A (some ([] : List String)) = some [] ∧
      main_ignore_dirs_A (some (some [])) = [] ∧
      main_ignore_dirs_A none = default_ignore_dirs_A ∧
      main_ignore_dirs_A (some none) = default_ignore_dirs_A) ∧
    ((∀ l, l ∈ fileLines → strip_comment l = "") →
      parse_ignore_file_A (some fileLines) = some []) ∧
    (∀ it : ContentItem, keep_item [] it = (it.type == "dir")) := by
  refine ⟨⟨rfl, rfl, rfl, rfl⟩, ?_, ?_⟩
  · intro hall
    show some ((fileLines.flatMap parse_tokens).filter (fun d => d ≠ "")) = some []
    rw [flatMap_tokens_blank hall]
    rfl
  · intro it
    simp [keep_item]

/-- C9 witness: a file holding one comment line and one blank line parses to
the empty ignore list. -/
theorem C9_witness :
    parse_ignore_file_A (some ["# only a comment", "   "]) = some [] :=
  ((C9_empty_ignore_file ["# only a comment", "   "]).2.1) (by decide)

theorem astro_run_attempts_le (responses : Nat → TeamIdOutcome) (a fuel : Nat) :
    (astro_run responses a fuel).2.1 ≤ fuel := by
  induction fuel generalizing a with
  | zero => simp [astro_run]
  | succ n ih =>
    cases h : responses a with
    | ok gid => simp [astro_run, h]
    | rateLimited =>
      simp only [astro_run, h]
      exact Nat.succ_le_succ (ih (a + 1))
    | httpError => simp [astro_run, h]
    | clientError => simp [astro_run, h]

theorem astro_run_waits_getD (responses : Nat → TeamIdOutcome) (fuel a k : Nat)
    (hk : k < (astro_run responses a fuel).2.2.length) :
    (astro_run responses a fuel).2.2.getD k 0 = backoff_factor * 2 ^ (a + k) := by
  induction fuel generalizing a k with
  | zero => simp [astro_run] at hk
  | succ n ih =>
    cases h : responses a with
    | ok gid => simp [astro_run, h] at hk
    | httpError => simp [astro_run, h] at hk
    | clientError => simp [astro_run, h] at hk
    | rateLimited =>
      simp only [astro_run, h] at hk ⊢
      cases k with
      | zero => simp
      | succ m =>
        simp only [List.getD_cons_succ]
        rw [show a + (m + 1) = (a + 1) + m by omega]
        exact ih (a + 1) m (by simpa using hk)

theorem astro_run_all_limited (responses : Nat → TeamIdOutcome) (fuel a : Nat)
    (hall : ∀ i, i < a + fuel → a ≤ i → responses i = TeamIdOutcome.rateLimited) :
    astro_run responses a fuel =
      (none, (fuel, (List.range fuel).map (fun j => backoff_factor * 2 ^ (a + j)))) := by
  induction fuel generalizing a with
  | zero => simp [astro_run]
  | succ n ih =>
    have ha : responses a = TeamIdOutcome.rateLimited :=
      hall a (by omega) (Nat.le_refl a)
    simp only [astro_run, ha]
    rw [ih (a + 1) (fun i h1 h2 => hall i (by omega) (by omega))]
    refine Prod.ext rfl (Prod.ext rfl ?_)
    show backoff_factor * 2 ^ a ::
        (List.range n).map (fun j => backoff_factor * 2 ^ ((a + 1) + j)) =
      (List.range (n + 1)).map (fun j => backoff_factor * 2 ^ (a + j))
    have htail : (List.range n).map ((fun j => backoff_factor * 2 ^ (a + j)) ∘ Nat.succ) =
        (List.range n).map (fun j => backoff_factor * 2 ^ ((a + 1) + j)) := by
      apply List.map_congr_left
      intro j hj
      show backoff_factor * 2 ^ (a + (j + 1)) = backoff_factor * 2 ^ ((a + 1) + j)
      rw [show a + (j + 1) = (a + 1) + j from by omega]
    rw [List.range_succ_eq_map, List.map_cons, List.map_map, htail]
    simp

/-- C8: the group-id lookup of Host B performs at most 5 request attempts in
total; every backoff sleep it performs at rate-limit attempt k lasts
backoff_factor times 2 to the k seconds; and when every attempt is
rate-limited it gives up after exactly 5 attempts with sleeps 1, 2, 4, 8, 16
and returns the terminal failure none instead of retrying further. -/
theorem C8_team_id_retry_budget (responses : Nat → TeamIdOutcome) :
    ((get_astro_team_id responses).2.1 ≤ astro_retries) ∧
    (∀ k, k < (get_astro_team_id responses).2.2.length →
      (get_astro_team_id responses).2.2.getD k 0 = backoff_factor * 2 ^ k) ∧
    ((∀ i, i < astro_retries → responses i = TeamIdOutcome.rateLimited) →
      get_astro_team_id responses = (none, (5, [1, 2, 4, 8, 16]))) := by
  refine ⟨astro_run_attempts_le responses 0 astro_retries, ?_, ?_⟩
  · intro k hk
    have h := astro_run_waits_getD responses astro_retries 0 k hk
    rwa [Nat.zero_add] at h
  · intro hall
    have h := astro_run_all_limited responses astro_retries 0
      (fun i h1 _ => hall i (by rwa [Nat.zero_add] at h1))
    unfold get_astro_team_id
    rw [h]
    decide

/-- C8 witness: an always-rate-limited oracle exhausts the budget with the
exponential sleep schedule and returns none. -/
theorem C8_witness : get_astro_team_id c8Responses = (none, (5, [1, 2, 4, 8, 16])) :=
  (C8_team_id_retry_budget c8Responses).2.2 (fun _ _ => rfl)

end IndiFetcher
